import Mathlib

/-!
Verification of the game-state inference engine of the mrext-client store
(`useServerStateStore` and its helpers `isArcadeGame`, `isValidGameForCore`,
`getGameStateType`, `setActiveCore`, `setActiveGame`).

Strings in the source are ASCII; JavaScript string operations are embedded
over `List Char`:
  * `a.includes(b)`            → `jsIncludes a b`
  * `s.toLowerCase()`          → `toLowerStr s` (ASCII lowering, as in the data)
  * `s.split('/')[0]`          → `firstSegment s`
  * `s.replace(/[^a-z0-9]/g,'')` → `stripNonAlnum s`
`console.log` calls are I/O only and do not affect any returned value; they
are omitted from the embedding.
-/

namespace MrextStore

/-- Boolean test that `p` is a prefix of `l` (character lists). -/
def leadsWith : List Char → List Char → Bool
  | [], _ => true
  | _ :: _, [] => false
  | a :: p, b :: l => a == b && leadsWith p l

/-- Boolean test that `sub` occurs contiguously inside `l`. -/
def containsSub : List Char → List Char → Bool
  | [], sub => leadsWith sub []
  | c :: t, sub => leadsWith sub (c :: t) || containsSub t sub

/-- JavaScript `s.includes(sub)`. -/
def jsIncludes (s sub : String) : Bool :=
  containsSub s.toList sub.toList

/-- JavaScript `s.toLowerCase()` restricted to ASCII, which covers every
string the store compares (catalog entries, patterns, sentinels). -/
def toLowerStr (s : String) : String :=
  ⟨s.toList.map Char.toLower⟩

/-- JavaScript `s.split('/')[0]`: the prefix of `s` before the first `/`. -/
def firstSegment (s : String) : String :=
  ⟨s.toList.takeWhile (fun c => !(c == '/'))⟩

/-- JavaScript `s.replace(/[^a-z0-9]/g, '')`: keep lowercase letters and
digits only. -/
def stripNonAlnum (s : String) : String :=
  ⟨s.toList.filter (fun c => decide (('a' ≤ c ∧ c ≤ 'z') ∨ ('0' ≤ c ∧ c ≤ '9')))⟩

/-- The `ALL_KNOWN_SYSTEMS` catalog from `isArcadeGame`, verbatim and in
source order (the duplicate `"GameGear"` entry included). -/
def ALL_KNOWN_SYSTEMS : List String := [
  "AdventureVision", "AVision", "Arcadia", "Astrocade", "Atari2600", "Atari5200", "Atari7800",
  "AtariLynx", "CasioPV1000", "CasioPV2000", "ChannelF", "CD-i", "Coleco", "ColecoVision", "CreatiVision",
  "FDS", "Gamate", "Gameboy", "Gameboy2P", "GameboyColor", "GameGear", "GameNWatch", "GBA", "GBA2P",
  "Genesis", "Intellivision", "Jaguar", "MasterSystem", "MegaDuck", "NES", "NeoGeo",
  "NeoGeoCD", "Nintendo64", "Odyssey2", "PCFX", "PokemonMini", "PSX", "Saturn", "Sega32X", "S32X",
  "MegaCD", "SG1000", "SMS", "SNES", "SuperGameboy", "SuperGrafx", "SuperVision",
  "Tamagotchi", "TurboGrafx16", "TurboGrafx16CD", "VC4000", "Vectrex", "WonderSwan",
  "WonderSwanColor",
  "AcornAtom", "AcornElectron", "AliceMC10", "Amiga", "AmigaCD32", "Amstrad", "AmstradPCW",
  "Apogee", "AppleI", "AppleII", "Apple-II", "Aquarius", "Atari800", "AtariST", "BBCMicro", "BK0011M", "C16",
  "C64", "ChipTest", "CoCo2", "CoCo3", "EDSAC", "Galaksija", "Interact", "Jupiter",
  "Laser", "Lynx48", "Macintosh", "MegaST", "MO5", "MSX", "MultiComp", "Orao", "Oric",
  "PC88", "PDP1", "PET2001", "PMD85", "RX78", "SAMCoupe", "SharpMZ", "SordM5",
  "Specialist", "SPMX", "TI994A", "TI-99_4A", "TRS80", "TRS-80", "TSConf", "UK101", "Vector06", "VIC20", "X68000",
  "ZX81", "ZXSpectrum",
  "Arduboy", "Chip8", "FlappyBird", "Groovy",
  "TGFX16", "PCE", "GG", "GameGear", "N64", "A7800", "ATARI5200", "ATARI7800", "LYNX", "NGP", "WS"]

/-- The known-system test inlined in `isArcadeGame`:
`ALL_KNOWN_SYSTEMS.some(system => core.toLowerCase().includes(system.toLowerCase())
|| system.toLowerCase().includes(core.toLowerCase()))`. -/
def matchesCatalog (core : String) : Bool :=
  ALL_KNOWN_SYSTEMS.any (fun sys =>
    jsIncludes (toLowerStr core) (toLowerStr sys) ||
    jsIncludes (toLowerStr sys) (toLowerStr core))

/-- The "smart detection for stale activeGame" block of `isArcadeGame`
(lines guarded by `!core.includes('/') && game && game.includes('/')`):
returns `true` exactly when that block would `return true`. -/
def staleArcadeDetect (core game : String) : Bool :=
  if jsIncludes core "/" = false ∧ game ≠ "" ∧ jsIncludes game "/" = true then
    if toLowerStr (firstSegment game) ≠ toLowerStr core ∧
        jsIncludes (toLowerStr core) (toLowerStr (firstSegment game)) = false ∧
        jsIncludes (toLowerStr (firstSegment game)) (toLowerStr core) = false then
      true
    else false
  else false

/-- `isArcadeGame(core, game)` from the store source, branch for branch. -/
def isArcadeGame (core game : String) : Bool :=
  if core = "" ∨ core = "None" then false
  else if matchesCatalog core = true then false
  else if game = core then true
  else if game = "" ∨ game = "None" then true
  else if staleArcadeDetect core game = true then true
  else if (game ≠ "" ∧ jsIncludes game "_Arcade" = true) ∨ jsIncludes core "_Arcade" = true then true
  else false

/-- The `suspiciousPatterns` table of `isValidGameForCore`, verbatim:
each entry pairs a lowercased path pattern with the compatible cores. -/
def suspiciousPatterns : List (String × List String) := [
  ("atari2600", ["atari2600", "atari7800"]),
  ("atari5200", ["atari5200"]),
  ("atari7800", ["atari7800"]),
  ("nes/", ["nes"]),
  ("snes/", ["snes"]),
  ("genesis/", ["genesis", "megadrive"]),
  ("megadrive/", ["genesis", "megadrive"]),
  ("gameboy/", ["gameboy", "gb"]),
  ("gba/", ["gba"]),
  ("c64/", ["c64"]),
  ("amiga/", ["amiga"]),
  ("apple-ii/", ["appleii", "apple-ii"]),
  ("msx/", ["msx"]),
  ("coleco/", ["coleco", "colecovision"]),
  ("intellivision/", ["intellivision"]),
  ("atari800/", ["atari800"]),
  ("commodore64/", ["c64"]),
  ("vic20/", ["vic20"]),
  ("zxspectrum/", ["zxspectrum"]),
  ("amstrad/", ["amstrad"])]

/-- `cores.some(core => coreLower.includes(core.toLowerCase()) ||
core.toLowerCase().includes(coreLower))` from the pattern loop. -/
def coreMatchesRule (coreLower : String) (cores : List String) : Bool :=
  cores.any (fun c =>
    jsIncludes coreLower (toLowerStr c) || jsIncludes (toLowerStr c) coreLower)

/-- The pattern loop of `isValidGameForCore` as a predicate: `true` iff the
loop falls through (every pattern contained in the game path has a matching
core), `false` iff some contained pattern has no matching core, which in the
source triggers `return false`. -/
def scanPatterns (coreLower gamePathLower : String) : Bool :=
  suspiciousPatterns.all (fun r =>
    !(jsIncludes gamePathLower r.1) || coreMatchesRule coreLower r.2)

/-- `isValidGameForCore(activeCore, activeGame)` from the store source,
branch for branch. -/
def isValidGameForCore (activeCore activeGame : String) : Bool :=
  if activeGame = "" ∨ activeGame = "None" ∨ activeCore = "" ∨ activeCore = "None" then false
  else if isArcadeGame activeCore activeGame = true then decide (activeGame = activeCore)
  else if activeGame = activeCore then false
  else if jsIncludes activeGame "/" = true ∧
      scanPatterns (stripNonAlnum (toLowerStr activeCore)) (toLowerStr activeGame) = false then false
  else if jsIncludes activeGame "/" = true ∨ jsIncludes activeGame "." = true then true
  else false

/-- The return type of `getGameStateType`:
`'none' | 'system' | 'game' | 'arcade' | 'stale'`. -/
inductive GameStateType where
  | none
  | system
  | game
  | arcade
  | stale
deriving DecidableEq

/-- `getGameStateType` from the store source, as a function of the two store
fields it reads. -/
def getGameStateType (activeCore activeGame : String) : GameStateType :=
  if activeCore = "" ∨ activeCore = "None" then GameStateType.none
  else if isArcadeGame activeCore activeGame = true then GameStateType.arcade
  else if isValidGameForCore activeCore activeGame = true then GameStateType.game
  else GameStateType.system

/-- `SearchServiceStatus` as initialized in the store
(`ready`, `indexing`, `totalSteps`, `currentStep`, `currentDesc`). -/
structure SearchServiceStatus where
  ready : Bool
  indexing : Bool
  totalSteps : Nat
  currentStep : Nat
  currentDesc : String
deriving DecidableEq

/-- The data fields of `useServerStateStore`. -/
structure ServerState where
  search : SearchServiceStatus
  activeGame : String
  activeCore : String
deriving DecidableEq

/-- `setActiveGame`: updates `activeGame` only when the value differs
(`!==`); the Bool records whether `set` was invoked, i.e. whether zustand
notifies subscribers. -/
def setActiveGame (s : ServerState) (game : String) : ServerState × Bool :=
  if s.activeGame ≠ game then ({ s with activeGame := game }, true)
  else (s, false)

/-- `setActiveCore`: updates `activeCore` only when the value differs
(`!==`); the Bool records whether `set` was invoked. -/
def setActiveCore (s : ServerState) (core : String) : ServerState × Bool :=
  if s.activeCore ≠ core then ({ s with activeCore := core }, true)
  else (s, false)

/-- `getGameStateType` as a store query: it reads `activeCore`/`activeGame`
via `get()` and performs no `set`, so the post-call state is returned
unchanged. -/
def getGameStateTypeQuery (s : ServerState) : GameStateType × ServerState :=
  (getGameStateType s.activeCore s.activeGame, s)

theorem leadsWith_refl (l : List Char) : leadsWith l l = true := by
  induction l with
  | nil => rfl
  | cons a t ih => simp [leadsWith, ih]

theorem containsSub_self (l : List Char) : containsSub l l = true := by
  cases l with
  | nil => rfl
  | cons c t => simp [containsSub, leadsWith_refl]

theorem jsIncludes_self (s : String) : jsIncludes s s = true :=
  containsSub_self s.toList

theorem matchesCatalog_empty : matchesCatalog "" = true := by decide

theorem scanPatterns_false_of_mismatch {p : String} {cs : List String}
    {cl gl : String} (hmem : (p, cs) ∈ suspiciousPatterns)
    (hpat : jsIncludes gl p = true) (hmis : coreMatchesRule cl cs = false) :
    scanPatterns cl gl = false := by
  rcases hsc : scanPatterns cl gl with _ | _
  · rfl
  · have hall := List.all_eq_true.mp hsc (p, cs) hmem
    rw [hpat, hmis] at hall
    simp at hall

/-- Claim C1: for every pair of strings (core, game), `getGameStateType`
returns exactly one of `none`, `system`, `arcade`, `game` — never `stale`
and with no error case — and the result is decided in first-match order:
`none` if core is empty or "None"; else `arcade` if `isArcadeGame`; else
`game` if `isValidGameForCore`; else `system`. -/
theorem c1_resolver_total_first_match (core game : String) :
    (getGameStateType core game = GameStateType.none ∨
      getGameStateType core game = GameStateType.system ∨
      getGameStateType core game = GameStateType.arcade ∨
      getGameStateType core game = GameStateType.game) ∧
    getGameStateType core game ≠ GameStateType.stale ∧
    (getGameStateType core game = GameStateType.none ↔ (core = "" ∨ core = "None")) ∧
    (getGameStateType core game = GameStateType.arcade ↔
      (¬(core = "" ∨ core = "None") ∧ isArcadeGame core game = true)) ∧
    (getGameStateType core game = GameStateType.game ↔
      (¬(core = "" ∨ core = "None") ∧ isArcadeGame core game = false ∧
        isValidGameForCore core game = true)) ∧
    (getGameStateType core game = GameStateType.system ↔
      (¬(core = "" ∨ core = "None") ∧ isArcadeGame core game = false ∧
        isValidGameForCore core game = false)) := by
  unfold getGameStateType
  by_cases h1 : core = "" ∨ core = "None"
  · simp [h1]
  · rcases h2 : isArcadeGame core game with _ | _
    · rcases h3 : isValidGameForCore core game with _ | _
      · simp [h1, h2, h3]
      · simp [h1, h2, h3]
    · simp [h1, h2]

/-- Claim C2, counterexample: `"None"` is not matched by the System Catalog,
yet `getGameStateType "None" "None"` is `none`, not `arcade`, refuting the
claim as stated for core = "None". -/
theorem c2_counterexample :
    matchesCatalog "None" = false ∧
    getGameStateType "None" "None" = GameStateType.none ∧
    getGameStateType "None" "None" ≠ GameStateType.arcade := by
  refine ⟨by decide, by decide, by decide⟩

/-- Claim C2, amended: for every core that is not the sentinel "None" and is
not matched by the System Catalog (in either substring direction,
case-insensitively), resolving with game = core yields `arcade`. (The empty
core is already excluded by the catalog hypothesis, since the empty string
is a substring of every catalog entry.) -/
theorem c2_uncatalogued_core_self_game_is_arcade (core : String)
    (hn : core ≠ "None") (hcat : matchesCatalog core = false) :
    getGameStateType core core = GameStateType.arcade := by
  have he : core ≠ "" := by
    intro h
    rw [h, matchesCatalog_empty] at hcat
    exact Bool.noConfusion hcat
  have h1 : ¬(core = "" ∨ core = "None") := by
    intro h
    rcases h with h | h
    · exact he h
    · exact hn h
  have harc : isArcadeGame core core = true := by
    unfold isArcadeGame
    simp [h1, hcat]
  unfold getGameStateType
  simp [h1, harc]

/-- Claim C2 witness: `"zzz"` is uncatalogued and resolves to `arcade` with
game = core. -/
theorem c2_witness :
    "zzz" ≠ "None" ∧ matchesCatalog "zzz" = false ∧
    getGameStateType "zzz" "zzz" = GameStateType.arcade :=
  ⟨by decide, by decide,
    c2_uncatalogued_core_self_game_is_arcade "zzz" (by decide) (by decide)⟩

/-- Claim C3: whenever core matches the System Catalog (case-insensitive
substring in either direction), `isArcadeGame` is false regardless of game;
in particular `getGameStateType "NES" "NES"` is `system`, not `arcade`. -/
theorem c3_catalog_blocks_arcade :
    (∀ core game : String, matchesCatalog core = true →
      isArcadeGame core game = false) ∧
    getGameStateType "NES" "NES" = GameStateType.system := by
  constructor
  · intro core game hcat
    unfold isArcadeGame
    by_cases h1 : core = "" ∨ core = "None"
    · simp [h1]
    · simp [h1, hcat]
  · decide

/-- Claim C3 witness: `"NES"` matches the catalog and is never arcade. -/
theorem c3_witness :
    matchesCatalog "NES" = true ∧ isArcadeGame "NES" "anything" = false :=
  ⟨by decide, c3_catalog_blocks_arcade.1 "NES" "anything" (by decide)⟩

/-- Claim C4: for core non-empty, not "None", uncatalogued, game non-empty,
not "None", distinct from core, core without `/` while game contains `/`,
and the first `/`-segment of game case-insensitively unrelated to core
(neither lowercased string a substring of the other), `isArcadeGame` is true
and `getGameStateType` is `arcade`. -/
theorem c4_cross_system_leak_is_arcade (core game : String)
    (h1 : core ≠ "") (h2 : core ≠ "None") (h3 : matchesCatalog core = false)
    (h4 : game ≠ "") (h5 : game ≠ "None") (h6 : game ≠ core)
    (h7 : jsIncludes core "/" = false) (h8 : jsIncludes game "/" = true)
    (h9 : jsIncludes (toLowerStr core) (toLowerStr (firstSegment game)) = false)
    (h10 : jsIncludes (toLowerStr (firstSegment game)) (toLowerStr core) = false) :
    isArcadeGame core game = true ∧
    getGameStateType core game = GameStateType.arcade := by
  have hne : toLowerStr (firstSegment game) ≠ toLowerStr core := by
    intro h
    rw [h, jsIncludes_self] at h10
    exact Bool.noConfusion h10
  have hstale : staleArcadeDetect core game = true := by
    unfold staleArcadeDetect
    simp [h7, h4, h8, hne, h9, h10]
  have hcore : ¬(core = "" ∨ core = "None") := by
    intro h
    rcases h with h | h
    exacts [h1 h, h2 h]
  have hgame : ¬(game = "" ∨ game = "None") := by
    intro h
    rcases h with h | h
    exacts [h4 h, h5 h]
  have harc : isArcadeGame core game = true := by
    unfold isArcadeGame
    simp [hcore, h3, h6, hgame, hstale]
  refine ⟨harc, ?_⟩
  unfold getGameStateType
  simp [hcore, harc]

/-- Claim C4 witness: `resolveState("SomeArcadeCore", "nes/SomeGame.nes")`
is `arcade`. -/
theorem c4_witness :
    matchesCatalog "SomeArcadeCore" = false ∧
    jsIncludes "nes/SomeGame.nes" "/" = true ∧
    isArcadeGame "SomeArcadeCore" "nes/SomeGame.nes" = true ∧
    getGameStateType "SomeArcadeCore" "nes/SomeGame.nes" = GameStateType.arcade :=
  ⟨by decide, by decide,
    (c4_cross_system_leak_is_arcade "SomeArcadeCore" "nes/SomeGame.nes"
      (by decide) (by decide) (by decide) (by decide) (by decide) (by decide)
      (by decide) (by decide) (by decide) (by decide)).1,
    (c4_cross_system_leak_is_arcade "SomeArcadeCore" "nes/SomeGame.nes"
      (by decide) (by decide) (by decide) (by decide) (by decide) (by decide)
      (by decide) (by decide) (by decide) (by decide)).2⟩

/-- Claim C5, counterexample: the rule `("commodore64/", ["c64"])` is in the
table, the game path `"commodore64/x"` contains the pattern, no associated
core matches the normalized core `"commodore64x"`, yet with
core = game = `"commodore64/x"` the pair classifies as arcade and
`isValidGameForCore` returns true, refuting the claim as stated. -/
theorem c5_counterexample :
    ("commodore64/", ["c64"]) ∈ suspiciousPatterns ∧
    jsIncludes (toLowerStr "commodore64/x") "commodore64/" = true ∧
    coreMatchesRule (stripNonAlnum (toLowerStr "commodore64/x")) ["c64"] = false ∧
    isValidGameForCore "commodore64/x" "commodore64/x" = true := by
  refine ⟨by decide, by decide, by decide, by decide⟩

/-- Claim C5, amended: for every prefix pattern in the ConsistencyRule table
and every (core, game) where game differs from core, game contains `/`,
game's lowercased path contains the pattern, and none of the rule's
associated core identifiers is a substring (either direction) of core
lowercased with non-alphanumeric characters stripped, `isValidGameForCore`
returns false. (The scan runs only on `/`-containing non-arcade paths; the
arcade game = core short-circuit and the extension-dot fallback otherwise
bypass it.) -/
theorem c5_consistency_rule_rejects (p : String) (cs : List String)
    (core game : String)
    (hmem : (p, cs) ∈ suspiciousPatterns)
    (hne : game ≠ core)
    (hslash : jsIncludes game "/" = true)
    (hpat : jsIncludes (toLowerStr game) p = true)
    (hmis : coreMatchesRule (stripNonAlnum (toLowerStr core)) cs = false) :
    isValidGameForCore core game = false := by
  have hscan := scanPatterns_false_of_mismatch hmem hpat hmis
  unfold isValidGameForCore
  by_cases h0 : game = "" ∨ game = "None" ∨ core = "" ∨ core = "None"
  · simp [h0]
  · rcases harc : isArcadeGame core game with _ | _
    · simp [h0, harc, hne, hslash, hscan]
    · simp [h0, harc, hne]

/-- Claim C5 witness: the `"nes/"` rule rejects `"nes/Mario.nes"` on the
`"C64"` core. -/
theorem c5_witness :
    ("nes/", ["nes"]) ∈ suspiciousPatterns ∧
    "nes/Mario.nes" ≠ "C64" ∧
    jsIncludes "nes/Mario.nes" "/" = true ∧
    jsIncludes (toLowerStr "nes/Mario.nes") "nes/" = true ∧
    coreMatchesRule (stripNonAlnum (toLowerStr "C64")) ["nes"] = false ∧
    isValidGameForCore "C64" "nes/Mario.nes" = false :=
  ⟨by decide, by decide, by decide, by decide, by decide,
    c5_consistency_rule_rejects "nes/" ["nes"] "C64" "nes/Mario.nes"
      (by decide) (by decide) (by decide) (by decide) (by decide)⟩

/-- Claim C6: for game and core non-empty and not "None", pair not arcade,
game distinct from core, game containing `/` or `.`, and no ConsistencyRule
pattern contained in game's lowercased path with an all-mismatching core set
(the scan falls through), `isValidGameForCore` is true; in particular
`getGameStateType "SNES" "SNES/Mario.sfc"` is `game` (shown in the
witness). -/
theorem c6_valid_path_game (core game : String)
    (hg1 : game ≠ "") (hg2 : game ≠ "None") (hc1 : core ≠ "") (hc2 : core ≠ "None")
    (harc : isArcadeGame core game = false) (hne : game ≠ core)
    (hpath : jsIncludes game "/" = true ∨ jsIncludes game "." = true)
    (hscan : scanPatterns (stripNonAlnum (toLowerStr core)) (toLowerStr game) = true) :
    isValidGameForCore core game = true ∧
    getGameStateType core game = GameStateType.game := by
  have h0 : ¬(game = "" ∨ game = "None" ∨ core = "" ∨ core = "None") := by
    intro h
    rcases h with h | h | h | h
    exacts [hg1 h, hg2 h, hc1 h, hc2 h]
  have hvalid : isValidGameForCore core game = true := by
    unfold isValidGameForCore
    rw [if_neg h0, if_neg (by simp [harc]), if_neg hne,
      if_neg (by simp [hscan]), if_pos hpath]
  have hcore : ¬(core = "" ∨ core = "None") := by
    intro h
    rcases h with h | h
    exacts [hc1 h, hc2 h]
  refine ⟨hvalid, ?_⟩
  unfold getGameStateType
  rw [if_neg hcore, if_neg (by simp [harc]), if_pos hvalid]

/-- Claim C6 witness: `resolveState("SNES", "SNES/Mario.sfc")` is `game`. -/
theorem c6_witness :
    isArcadeGame "SNES" "SNES/Mario.sfc" = false ∧
    scanPatterns (stripNonAlnum (toLowerStr "SNES")) (toLowerStr "SNES/Mario.sfc") = true ∧
    isValidGameForCore "SNES" "SNES/Mario.sfc" = true ∧
    getGameStateType "SNES" "SNES/Mario.sfc" = GameStateType.game :=
  ⟨by decide, by decide,
    (c6_valid_path_game "SNES" "SNES/Mario.sfc" (by decide) (by decide)
      (by decide) (by decide) (by decide) (by decide)
      (Or.inl (by decide)) (by decide)).1,
    (c6_valid_path_game "SNES" "SNES/Mario.sfc" (by decide) (by decide)
      (by decide) (by decide) (by decide) (by decide)
      (Or.inl (by decide)) (by decide)).2⟩

/-- Claim C7, counterexample: the bidirectional case-insensitive substring
membership test yields true, not false, on the empty string, because the
empty string is a substring of every catalog entry. -/
theorem c7_counterexample : matchesCatalog "" = true := by decide

/-- Claim C7, amended: the catalog membership test yields true on the empty
string (the empty string is a substring of every entry); the empty core is
nevertheless never classified as arcade, because `isArcadeGame` rejects the
empty core before consulting the catalog. -/
theorem c7_empty_core_never_arcade (game : String) :
    matchesCatalog "" = true ∧ isArcadeGame "" game = false := by
  constructor
  · decide
  · unfold isArcadeGame
    simp

/-- Claim C8: `setActiveGame`/`setActiveCore` are idempotent no-ops on equal
input — when the stored value already equals the argument the store state is
unchanged and no `set` (hence no subscriber notification) is issued — and a
repeated call with the same value never produces a second notification. -/
theorem c8_setters_idempotent (s : ServerState) (x : String) :
    (s.activeGame = x → setActiveGame s x = (s, false)) ∧
    (s.activeCore = x → setActiveCore s x = (s, false)) ∧
    (setActiveGame (setActiveGame s x).1 x).2 = false ∧
    (setActiveCore (setActiveCore s x).1 x).2 = false := by
  refine ⟨?_, ?_, ?_, ?_⟩
  · intro h
    simp [setActiveGame, h]
  · intro h
    simp [setActiveCore, h]
  · by_cases h : s.activeGame = x
    · simp [setActiveGame, h]
    · simp [setActiveGame, h]
  · by_cases h : s.activeCore = x
    · simp [setActiveCore, h]
    · simp [setActiveCore, h]

/-- Claim C8 witness: on a store with both fields `"a"`, setting `"a"` again
is a silent no-op for both setters. -/
theorem c8_witness :
    (⟨⟨true, false, 0, 0, ""⟩, "a", "a"⟩ : ServerState).activeGame = "a" ∧
    (⟨⟨true, false, 0, 0, ""⟩, "a", "a"⟩ : ServerState).activeCore = "a" ∧
    setActiveGame ⟨⟨true, false, 0, 0, ""⟩, "a", "a"⟩ "a" =
      (⟨⟨true, false, 0, 0, ""⟩, "a", "a"⟩, false) ∧
    setActiveCore ⟨⟨true, false, 0, 0, ""⟩, "a", "a"⟩ "a" =
      (⟨⟨true, false, 0, 0, ""⟩, "a", "a"⟩, false) :=
  ⟨rfl, rfl,
    (c8_setters_idempotent ⟨⟨true, false, 0, 0, ""⟩, "a", "a"⟩ "a").1 rfl,
    (c8_setters_idempotent ⟨⟨true, false, 0, 0, ""⟩, "a", "a"⟩ "a").2.1 rfl⟩

/-- Claim C9: the resolver query is deterministic and pure — two stores with
equal `activeCore` and `activeGame` yield the same `GameStateType` (the
other fields, and in particular `search`, are never read), and the call
leaves the store state unchanged. -/
theorem c9_resolver_pure (s1 s2 : ServerState)
    (hc : s1.activeCore = s2.activeCore) (hg : s1.activeGame = s2.activeGame) :
    (getGameStateTypeQuery s1).1 = (getGameStateTypeQuery s2).1 ∧
    (getGameStateTypeQuery s1).2 = s1 ∧
    (getGameStateTypeQuery s2).2 = s2 := by
  unfold getGameStateTypeQuery
  rw [hc, hg]
  exact ⟨rfl, rfl, rfl⟩

/-- Claim C9 witness: two stores equal on (activeCore, activeGame) but with
different search status agree on the resolved state, and neither query call
mutates its store. -/
theorem c9_witness :
    (⟨⟨true, false, 0, 0, ""⟩, "SNES/Mario.sfc", "SNES"⟩ : ServerState).activeCore =
      (⟨⟨false, true, 3, 1, "d"⟩, "SNES/Mario.sfc", "SNES"⟩ : ServerState).activeCore ∧
    (⟨⟨true, false, 0, 0, ""⟩, "SNES/Mario.sfc", "SNES"⟩ : ServerState).activeGame =
      (⟨⟨false, true, 3, 1, "d"⟩, "SNES/Mario.sfc", "SNES"⟩ : ServerState).activeGame ∧
    ((getGameStateTypeQuery ⟨⟨true, false, 0, 0, ""⟩, "SNES/Mario.sfc", "SNES"⟩).1 =
        (getGameStateTypeQuery ⟨⟨false, true, 3, 1, "d"⟩, "SNES/Mario.sfc", "SNES"⟩).1 ∧
      (getGameStateTypeQuery ⟨⟨true, false, 0, 0, ""⟩, "SNES/Mario.sfc", "SNES"⟩).2 =
        ⟨⟨true, false, 0, 0, ""⟩, "SNES/Mario.sfc", "SNES"⟩ ∧
      (getGameStateTypeQuery ⟨⟨false, true, 3, 1, "d"⟩, "SNES/Mario.sfc", "SNES"⟩).2 =
        ⟨⟨false, true, 3, 1, "d"⟩, "SNES/Mario.sfc", "SNES"⟩) :=
  ⟨rfl, rfl,
    c9_resolver_pure ⟨⟨true, false, 0, 0, ""⟩, "SNES/Mario.sfc", "SNES"⟩
      ⟨⟨false, true, 3, 1, "d"⟩, "SNES/Mario.sfc", "SNES"⟩ rfl rfl⟩

/-- Claim C10 (implicit frame property): `setActiveGame` changes at most
`activeGame` — `activeCore` and `search` keep their previous values — and
symmetrically `setActiveCore` changes at most `activeCore`. -/
theorem c10_setters_frame (s : ServerState) (x : String) :
    (setActiveGame s x).1.activeCore = s.activeCore ∧
    (setActiveGame s x).1.search = s.search ∧
    (setActiveCore s x).1.activeGame = s.activeGame ∧
    (setActiveCore s x).1.search = s.search := by
  unfold setActiveGame setActiveCore
  by_cases hg : s.activeGame = x <;> by_cases hc : s.activeCore = x <;>
    simp [hg, hc]

end MrextStore
